import Mathlib

/-
Shallow embedding of the prd-agents pipeline (src/run.py) and proofs about it.

The program turns a meeting transcript plus an optional directory of
supporting documents into a sequence of generated artifacts.  The embedding
models:
  * the per-extension Ingestion Dispatcher (ingest_txt_md, ingest_csv,
    ingest_xlsx, ingest_pptx_text_only and the extension dispatch inside
    build_context_bundle),
  * the Context Bundler (build_context_bundle),
  * the Pipeline Orchestrator (main), rendered as the list of external
    events it performs (prompt-file reads, agent invocations, artifact
    writes).

External capabilities (the filesystem reads, the openpyxl / python-pptx
libraries, the json.loads parser and the OpenAI call) are modelled as
fields of an Env record: each is a function the program calls, with
Except results standing for Python exceptions.  Python library functions
with fixed semantics (str.strip, repr of row lists, json.dumps(-, indent=2),
truthiness of parsed JSON values) are modelled concretely below.
-/

namespace PrdAgents

/-- Python str.strip() whitespace set (space, tab, newline, carriage return,
vertical tab, form feed). -/
def pyIsSpace (c : Char) : Bool :=
  c == ' ' || c == '\t' || c == '\n' || c == '\r' || c == '\x0b' || c == '\x0c'

/-- Python str.strip(): drop leading and trailing whitespace. -/
def pyStrip (s : String) : String :=
  String.mk (((s.data.dropWhile pyIsSpace).reverse.dropWhile pyIsSpace).reverse)

/-- Code-point lexicographic strict comparison of char lists; this is the
order Python uses to compare strings (and hence to sort the Path objects
returned by glob, which all live in the same directory). -/
def strLtB : List Char → List Char → Bool
  | [], [] => false
  | [], _ :: _ => true
  | _ :: _, [] => false
  | a :: as, b :: bs =>
    if a.toNat < b.toNat then true
    else if b.toNat < a.toNat then false
    else strLtB as bs

/-- ASCII lowercasing of one character, as str.lower() acts on the ASCII
range (file extensions in this program are ASCII). -/
def charLower (c : Char) : Char :=
  if 65 ≤ c.toNat ∧ c.toNat ≤ 90 then Char.ofNat (c.toNat + 32) else c

/-- pathlib.PurePath.suffix: the final dotted extension of a name, empty when
the only dot is leading or trailing. -/
def pathSuffix (name : String) : String :=
  let l := name.data
  match l.reverse.findIdx? (fun c => c == '.') with
  | none => ""
  | some j =>
    let i := l.length - 1 - j
    if 0 < i ∧ i < l.length - 1 then String.mk (l.drop i) else ""

/-- path.suffix.lower() as computed at the top of the dispatch in
build_context_bundle (src/run.py line 118). -/
def extOf (name : String) : String :=
  String.mk ((pathSuffix name).data.map charLower)

/-- Hex digit character (lowercase), for Python escape sequences. -/
def hexDigit (n : Nat) : Char :=
  if n < 10 then Char.ofNat (48 + n) else Char.ofNat (87 + n)

/-- Escape of one character inside a Python repr()-quoted string with quote
character q. -/
def pyReprCharEsc (q : Char) (c : Char) : List Char :=
  if c == '\\' then ['\\', '\\']
  else if c == q then ['\\', q]
  else if c == '\n' then ['\\', 'n']
  else if c == '\r' then ['\\', 'r']
  else if c == '\t' then ['\\', 't']
  else if c.toNat < 32 || c.toNat == 127 then
    ['\\', 'x', hexDigit (c.toNat / 16), hexDigit (c.toNat % 16)]
  else [c]

/-- Python repr() of a string: single-quoted unless the string contains a
single quote and no double quote. -/
def pyReprStr (s : String) : String :=
  let hasSingle := s.data.contains (Char.ofNat 39)
  let hasDouble := s.data.contains '\x22'
  let q : Char := if hasSingle && !hasDouble then '\x22' else Char.ofNat 39
  String.mk (q :: s.data.flatMap (pyReprCharEsc q) ++ [q])

/-- Python repr() of a list, given a repr for its elements. -/
def pyReprList (f : α → String) (l : List α) : String :=
  "[" ++ String.intercalate ", " (l.map f) ++ "]"

/-- Python repr() of an optional cell value (None or str). -/
def pyReprCell : Option String → String
  | none => "None"
  | some s => pyReprStr s

/-- Python repr() of a list of CSV rows, as rendered by the f-string in
ingest_csv. -/
def pyReprRows : List (List String) → String :=
  pyReprList (pyReprList pyReprStr)

/-- Python repr() of the xlsx preview grid, as rendered by the f-string in
ingest_xlsx. -/
def pyReprGrid : List (List (Option String)) → String :=
  pyReprList (pyReprList pyReprCell)

mutual
/-- A parsed JSON value as produced by json.loads (numbers restricted to
integers; the pipeline never inspects numeric values). -/
inductive PyJson where
  | null
  | bool (b : Bool)
  | num (n : Int)
  | str (s : String)
  | arr (xs : PyJsonList)
  | obj (kvs : PyJsonObj)
inductive PyJsonList where
  | nil
  | cons (hd : PyJson) (tl : PyJsonList)
inductive PyJsonObj where
  | onil
  | ocons (k : String) (v : PyJson) (tl : PyJsonObj)
end

/-- Indentation string used by json.dumps(-, indent=2) at depth d. -/
def jsonInd (d : Nat) : String := String.mk (List.replicate (2 * d) ' ')

/-- Four hex digits of a \uXXXX JSON escape. -/
def jsonHex4 (n : Nat) : List Char :=
  [hexDigit (n / 4096 % 16), hexDigit (n / 256 % 16), hexDigit (n / 16 % 16), hexDigit (n % 16)]

/-- Escape of one character by json.dumps with its default ensure_ascii:
everything outside printable ASCII becomes an escape sequence. -/
def jsonEscapeChar (c : Char) : List Char :=
  if c == '\x22' then ['\\', '\x22']
  else if c == '\\' then ['\\', '\\']
  else if c == '\n' then ['\\', 'n']
  else if c == '\t' then ['\\', 't']
  else if c == '\r' then ['\\', 'r']
  else if c.toNat == 8 then ['\\', 'b']
  else if c.toNat == 12 then ['\\', 'f']
  else if 32 ≤ c.toNat ∧ c.toNat ≤ 126 then [c]
  else if c.toNat < 65536 then '\\' :: 'u' :: jsonHex4 c.toNat
  else
    ('\\' :: 'u' :: jsonHex4 (55296 + (c.toNat - 65536) / 1024)) ++
    ('\\' :: 'u' :: jsonHex4 (56320 + (c.toNat - 65536) % 1024))

/-- JSON string literal rendering of s. -/
def jsonQuote (s : String) : String :=
  String.mk ('\x22' :: s.data.flatMap jsonEscapeChar ++ ['\x22'])

mutual
/-- json.dumps(v, indent=2) at depth d. -/
def dumpVal (d : Nat) : PyJson → String
  | .null => "null"
  | .bool b => if b then "true" else "false"
  | .num n => toString n
  | .str s => jsonQuote s
  | .arr .nil => "[]"
  | .arr xs => "[\n" ++ jsonInd (d + 1) ++ dumpList (d + 1) xs ++ "\n" ++ jsonInd d ++ "]"
  | .obj .onil => "\x7b\x7d"
  | .obj kvs => "\x7b\n" ++ jsonInd (d + 1) ++ dumpObj (d + 1) kvs ++ "\n" ++ jsonInd d ++ "\x7d"
def dumpList (d : Nat) : PyJsonList → String
  | .nil => ""
  | .cons x .nil => dumpVal d x
  | .cons x tl => dumpVal d x ++ ",\n" ++ jsonInd d ++ dumpList d tl
def dumpObj (d : Nat) : PyJsonObj → String
  | .onil => ""
  | .ocons k v .onil => jsonQuote k ++ ": " ++ dumpVal d v
  | .ocons k v tl => jsonQuote k ++ ": " ++ dumpVal d v ++ ",\n" ++ jsonInd d ++ dumpObj d tl
end

/-- json.dumps(v, indent=2) as called in main (src/run.py lines 193 and 198). -/
def pyDumps (v : PyJson) : String := dumpVal 0 v

/-- Python truthiness of a parsed JSON value, as tested by
`if notes_json` (src/run.py lines 198 and 213). -/
def pyTruthy : PyJson → Bool
  | .null => false
  | .bool b => b
  | .num n => n != 0
  | .str s => !s.data.isEmpty
  | .arr .nil => false
  | .arr (.cons _ _) => true
  | .obj .onil => false
  | .obj (.ocons _ _ _) => true

/-- A Python exception escaping into the caller. -/
inductive PyExc where
  | os (msg : String)
  | badFile (msg : String)
  | parseErr (msg : String)
deriving DecidableEq

/-- One direct child of the context directory, as surfaced by
Path("context").glob("*"): its file name and whether it is a directory. -/
structure Entry where
  name : String
  isDir : Bool
deriving DecidableEq

/-- An openpyxl worksheet: title plus the populated cell region
(row-major; a missing entry means the cell is unpopulated and
sheet.cell(...).value returns None). -/
structure Sheet where
  title : String
  data : List (List (Option String))
deriving DecidableEq

/-- An openpyxl workbook. -/
structure Workbook where
  worksheets : List Sheet
deriving DecidableEq

/-- A python-pptx shape: text is none when the shape has no text attribute,
some t when shape.text is t. -/
structure PShape where
  text : Option String
deriving DecidableEq

/-- A python-pptx slide: its shapes, plus the outcome of reading
slide.notes_slide/notes_text_frame (error = the attribute access raised,
ok none = no notes frame, ok (some t) = frame text t). -/
structure Slide where
  shapes : List PShape
  notesText : Except PyExc (Option String)

/-- A python-pptx presentation. -/
structure Pres where
  slides : List Slide

/-- The external world as the program sees it: the transcript content, the
instruction files, the agent-invocation capability, json.loads, and the
per-format file-reading capabilities.  openpyxl / pptx are none when the
library is not importable, some load when it is (load may itself fail on a
malformed file). -/
structure Env where
  transcript : String
  prompts : String → String
  agent : String → String → String
  jsonLoads : String → Option PyJson
  readTextIgnore : String → Except PyExc String
  readCsvRows : String → Except PyExc (List (List String))
  openpyxl : Option (String → Except PyExc Workbook)
  pptx : Option (String → Except PyExc Pres)

/-- ingest_txt_md (src/run.py lines 35-36): full decoded text; decoding
errors are ignored inside the capability, but an OS-level read failure
raises. -/
def ingest_txt_md (env : Env) (p : String) : Except PyExc String :=
  env.readTextIgnore p

/-- ingest_csv (src/run.py lines 38-46): the enumerate/break loop keeps
exactly the first 30 parsed rows, then renders them inside the preview
f-string. -/
def ingest_csv (env : Env) (p : String) : Except PyExc String :=
  match env.readCsvRows p with
  | .error e => .error e
  | .ok rows => .ok ("CSV PREVIEW (first 30 rows):\n" ++ pyReprRows (rows.take 30))

/-- sheet.cell(row=r, column=c).value for 1-based r, c: None outside the
populated region. -/
def sheetCell (s : Sheet) (r c : Nat) : Option String :=
  (((s.data[r - 1]?).bind (fun row => row[c - 1]?)).join)

/-- The nested loop of ingest_xlsx (src/run.py lines 60-66):
for r in range(1, 16): for c in range(1, 11): read the cell. -/
def sheetPreviewGrid (s : Sheet) : List (List (Option String)) :=
  (List.range' 1 15).map (fun r => (List.range' 1 10).map (fun c => sheetCell s r c))

/-- The two strings appended to parts for one sheet
(src/run.py lines 58 and 67). -/
def xlsxSheetPart (s : Sheet) : List String :=
  ["Sheet: " ++ s.title,
   "Top-left preview (15x10):\n" ++ pyReprGrid (sheetPreviewGrid s)]

/-- "\n".join(parts) over the first three sheets
(src/run.py lines 56-68). -/
def xlsxRender (sheets : List Sheet) : String :=
  String.intercalate "\n" ((sheets.take 3).flatMap xlsxSheetPart)

/-- ingest_xlsx (src/run.py lines 48-68): the ImportError is caught and
degrades to a message, but load_workbook is called outside any handler, so
its failure propagates. -/
def ingest_xlsx (env : Env) (p : String) : Except PyExc String :=
  match env.openpyxl with
  | none => .ok "XLSX provided but openpyxl is not installed."
  | some load =>
    match load p with
    | .error e => .error e
    | .ok wb => .ok (xlsxRender wb.worksheets)

/-- The texts list of one slide (src/run.py lines 79-84): shapes with a
truthy text attribute, stripped, kept when still nonempty. -/
def slideTexts (sl : Slide) : List String :=
  sl.shapes.filterMap (fun sh =>
    match sh.text with
    | none => none
    | some tx =>
      if tx = "" then none
      else if pyStrip tx = "" then none
      else some (pyStrip tx))

/-- notes_text of one slide (src/run.py lines 85-91): the try/except
swallows a raising notes_slide access. -/
def slideNotes (sl : Slide) : String :=
  match sl.notesText with
  | .error _ => ""
  | .ok none => ""
  | .ok (some raw) => pyStrip raw

/-- The parts appended for slide number i (src/run.py lines 93-106). -/
def slideParts (i : Nat) (sl : Slide) : List String :=
  let texts := slideTexts sl
  let notes := slideNotes sl
  ["--- Slide " ++ toString i ++ " ---"] ++
  [if texts ≠ [] then "SLIDE TEXT:\n" ++ String.intercalate "\n" texts
   else "SLIDE TEXT: (none detected)"] ++
  [if notes ≠ "" then "SPEAKER NOTES:\n" ++ notes else "SPEAKER NOTES: (none)"] ++
  (if texts = [] ∧ notes = "" then
    ["NOTE: This slide may be mostly images/screenshots. Add speaker notes or a captions doc."]
   else [])

/-- ingest_pptx_text_only (src/run.py lines 70-108): the ImportError is
caught, but Presentation(path) is called outside any handler, so a
malformed file propagates. -/
def ingest_pptx_text_only (env : Env) (p : String) : Except PyExc String :=
  match env.pptx with
  | none => .ok "PPTX provided but python-pptx is not installed."
  | some load =>
    match load p with
    | .error e => .error e
    | .ok prs =>
      .ok (String.intercalate "\n" (prs.slides.enum.flatMap (fun pr => slideParts (pr.1 + 1) pr.2)))

/-- The Ingestion Dispatcher: the extension-keyed if/elif chain inside the
bundling loop (src/run.py lines 118-129). -/
def dispatch (env : Env) (e : Entry) : Except PyExc String :=
  if extOf e.name = ".txt" ∨ extOf e.name = ".md" then ingest_txt_md env e.name
  else if extOf e.name = ".csv" then ingest_csv env e.name
  else if extOf e.name = ".xlsx" then ingest_xlsx env e.name
  else if extOf e.name = ".pptx" then ingest_pptx_text_only env e.name
  else .ok ("(Skipped unsupported file type: " ++ extOf e.name ++ ")")

/-- Python sorted() comparing entries the way sorted(Path.glob("*")) does
for children of one directory: by name, code-point lexicographic. -/
def entryLE (a b : Entry) : Prop := strLtB b.name.data a.name.data = false

/-- Strict name order on entries, used to show sorted outputs are unique. -/
def entryLT (a b : Entry) : Prop := strLtB a.name.data b.name.data = true

instance : DecidableRel entryLE := fun a b =>
  inferInstanceAs (Decidable (strLtB b.name.data a.name.data = false))

/-- sorted(context_dir.glob("*")) (src/run.py line 115): a stable sort by
name of the listing. -/
def sortEntries (l : List Entry) : List Entry := List.insertionSort entryLE l

/-- The bundling loop body (src/run.py lines 115-130): skip directories,
dispatch each file, wrap the preview in the FILE header; the first raised
exception aborts the pass. -/
def processEntries (env : Env) : List Entry → Except PyExc (List String)
  | [] => .ok []
  | e :: es =>
    if e.isDir then processEntries env es
    else
      match dispatch env e with
      | .error ex => .error ex
      | .ok body =>
        match processEntries env es with
        | .error ex => .error ex
        | .ok rest => .ok (("\n\n===== FILE: " ++ e.name ++ " =====\n" ++ body) :: rest)

/-- build_context_bundle (src/run.py lines 110-132): empty string for a
missing directory, else the sorted chunks joined with "\n" and stripped. -/
def build_context_bundle (env : Env) (dir : Option (List Entry)) : Except PyExc String :=
  match dir with
  | none => .ok ""
  | some entries =>
    match processEntries env (sortEntries entries) with
    | .error ex => .error ex
    | .ok chunks => .ok (pyStrip (String.intercalate "\n" chunks))

/-- An observable action of main: a prompt-file read, an agent invocation,
or an artifact write. -/
inductive Ev where
  | readPromptEv (name : String)
  | agentCallEv (prompt : String) (input : String)
  | writeEv (name : String) (content : String)
deriving DecidableEq

/-- The first stage-0 block (src/run.py lines 158-165), guarded by
context_bundle.strip(): read the librarian prompt, invoke the agent, write
out/context.md. -/
def stage0First (env : Env) (bundle : String) : List Ev × String :=
  if pyStrip bundle ≠ "" then
    let lp := env.prompts "agents/librarian.txt"
    let cp := env.agent lp bundle
    ([.readPromptEv "agents/librarian.txt", .agentCallEv lp bundle, .writeEv "out/context.md" cp], cp)
  else ([], "")

/-- The duplicated second stage-0 block (src/run.py lines 175-179), guarded
by the bare context_bundle truthiness. -/
def stage0Second (env : Env) (bundle : String) : List Ev × String :=
  if bundle ≠ "" then
    let lp := env.prompts "agents/librarian.txt"
    let cp := env.agent lp bundle
    ([.readPromptEv "agents/librarian.txt", .agentCallEv lp bundle, .writeEv "out/context.md" cp], cp)
  else ([], "")

/-- combined_input as recomputed at src/run.py lines 182-184 (the value the
Chief of Staff actually receives). -/
def combinedInput (env : Env) (bundle : String) : String :=
  let cp := (stage0Second env bundle).2
  if cp ≠ "" then env.transcript ++ "\n\n===== CONTEXT PACK =====\n" ++ cp
  else env.transcript

/-- notes_text, the raw stage-1 output (src/run.py line 187). -/
def notesText (env : Env) (bundle : String) : String :=
  env.agent (env.prompts "agents/chief_of_staff.txt") (combinedInput env bundle)

/-- The write of out/notes.json, performed only when json.loads succeeds
(src/run.py lines 190-195). -/
def jsonEvents (env : Env) (bundle : String) : List Ev :=
  match env.jsonLoads (notesText env bundle) with
  | some v => [Ev.writeEv "out/notes.json" (pyDumps v)]
  | none => []

/-- prd_input (src/run.py line 198): json.dumps(notes_json, indent=2) if
notes_json is truthy, else the raw text. -/
def prdInput (env : Env) (bundle : String) : String :=
  match env.jsonLoads (notesText env bundle) with
  | some v => if pyTruthy v then pyDumps v else notesText env bundle
  | none => notesText env bundle

/-- prd_md, the stage-2 output (src/run.py line 199). -/
def prdMd (env : Env) (bundle : String) : String :=
  env.agent (env.prompts "agents/prd_writer.txt") (prdInput env bundle)

/-- The four unconditional prompt reads at the top of main
(src/run.py lines 147-150). -/
def prePromptEvents : List Ev :=
  [.readPromptEv "agents/chief_of_staff.txt", .readPromptEv "agents/prd_writer.txt",
   .readPromptEv "agents/cfo_critic.txt", .readPromptEv "agents/coo_jira.txt"]

/-- The event trace of main after the bundle is built
(src/run.py lines 147-208).  The value _combined1 mirrors the dead first
computation of combined_input (lines 168-173), overwritten at lines 182-184. -/
def pipelineEvents (env : Env) (bundle : String) : List Ev :=
  let _combined1 :=
    if pyStrip (stage0First env bundle).2 ≠ "" then
      env.transcript ++ "\n\n===== CONTEXT PACK =====\n" ++ (stage0First env bundle).2
    else env.transcript
  prePromptEvents ++ (stage0First env bundle).1 ++ (stage0Second env bundle).1 ++
  [Ev.agentCallEv (env.prompts "agents/chief_of_staff.txt") (combinedInput env bundle),
   Ev.writeEv "out/notes_raw.txt" (notesText env bundle)] ++
  jsonEvents env bundle ++
  [Ev.agentCallEv (env.prompts "agents/prd_writer.txt") (prdInput env bundle),
   Ev.writeEv "out/prd.md" (prdMd env bundle),
   Ev.agentCallEv (env.prompts "agents/cfo_critic.txt") (prdMd env bundle),
   Ev.writeEv "out/roi_review.md" (env.agent (env.prompts "agents/cfo_critic.txt") (prdMd env bundle)),
   Ev.agentCallEv (env.prompts "agents/coo_jira.txt") (prdMd env bundle),
   Ev.writeEv "out/jira_plan.json" (env.agent (env.prompts "agents/coo_jira.txt") (prdMd env bundle))]

/-- main (src/run.py lines 134-217) for a given directory snapshot: an
exception from the bundling pass aborts the run, otherwise the pipeline
runs to completion and produces its event trace. -/
def runMain (env : Env) (dir : Option (List Entry)) : Except PyExc (List Ev) :=
  match build_context_bundle env dir with
  | .error e => .error e
  | .ok bundle => .ok (pipelineEvents env bundle)

/-- The successful trace of a run (empty on an aborted run). -/
def traceOf (env : Env) (dir : Option (List Entry)) : List Ev :=
  match runMain env dir with
  | .ok evs => evs
  | .error _ => []

/-- Contents written to a given artifact file, in trace order. -/
def writeEvts (name : String) : List Ev → List String
  | [] => []
  | Ev.writeEv n c :: rest => if n = name then c :: writeEvts name rest else writeEvts name rest
  | _ :: rest => writeEvts name rest

/-- Prompt files read, in trace order. -/
def promptReadsOf : List Ev → List String
  | [] => []
  | Ev.readPromptEv n :: rest => n :: promptReadsOf rest
  | _ :: rest => promptReadsOf rest

/-- Agent invocations (prompt, input), in trace order. -/
def agentCallsOf : List Ev → List (String × String)
  | [] => []
  | Ev.agentCallEv p i :: rest => (p, i) :: agentCallsOf rest
  | _ :: rest => agentCallsOf rest

/-- Inputs of the agent invocations made with a given prompt string. -/
def agentInputsFor (prompt : String) : List Ev → List String
  | [] => []
  | Ev.agentCallEv p i :: rest =>
    if p = prompt then i :: agentInputsFor prompt rest else agentInputsFor prompt rest
  | _ :: rest => agentInputsFor prompt rest

/-- Element of a nested list at 0-based (i, j). -/
def gridGet (g : List (List (Option String))) (i j : Nat) : Option (Option String) :=
  (g[i]?).bind (fun row => row[j]?)

/-- True when an ingest call raised instead of producing a preview. -/
def raisedB : Except PyExc String → Bool
  | .error _ => true
  | .ok _ => false

/-! Basic facts about characters, strings and the lexicographic comparison. -/

theorem charEq_of_toNat_eq {a b : Char} (h : a.toNat = b.toNat) : a = b := by
  have h1 : Char.ofNat a.toNat = Char.ofNat b.toNat := congrArg Char.ofNat h
  rwa [Char.ofNat_toNat, Char.ofNat_toNat] at h1

theorem stringEq_of_data_eq {s t : String} (h : s.data = t.data) : s = t := by
  cases s; cases t; exact congrArg String.mk h

theorem strLtB_irrefl (l : List Char) : strLtB l l = false := by
  induction l with
  | nil => rfl
  | cons a as ih =>
    simp only [strLtB]
    rw [if_neg (Nat.lt_irrefl _), if_neg (Nat.lt_irrefl _)]
    exact ih

theorem strLtB_trans : ∀ (l1 l2 l3 : List Char),
    strLtB l1 l2 = true → strLtB l2 l3 = true → strLtB l1 l3 = true := by
  intro l1
  induction l1 with
  | nil =>
    intro l2 l3 h1 h2
    cases l2 with
    | nil => simp [strLtB] at h1
    | cons b bs =>
      cases l3 with
      | nil => simp [strLtB] at h2
      | cons c cs => rfl
  | cons a as ih =>
    intro l2 l3 h1 h2
    cases l2 with
    | nil => simp [strLtB] at h1
    | cons b bs =>
      cases l3 with
      | nil => simp [strLtB] at h2
      | cons c cs =>
        simp only [strLtB] at h1 h2 ⊢
        by_cases hab : a.toNat < b.toNat
        · by_cases hbc : b.toNat < c.toNat
          · rw [if_pos (Nat.lt_trans hab hbc)]
          · rw [if_neg hbc] at h2
            by_cases hcb : c.toNat < b.toNat
            · rw [if_pos hcb] at h2; exact Bool.noConfusion h2
            · have hac : a.toNat < c.toNat := by omega
              rw [if_pos hac]
        · rw [if_neg hab] at h1
          by_cases hba : b.toNat < a.toNat
          · rw [if_pos hba] at h1; exact Bool.noConfusion h1
          · rw [if_neg hba] at h1
            by_cases hbc : b.toNat < c.toNat
            · have hac : a.toNat < c.toNat := by omega
              rw [if_pos hac]
            · rw [if_neg hbc] at h2
              by_cases hcb : c.toNat < b.toNat
              · rw [if_pos hcb] at h2; exact Bool.noConfusion h2
              · rw [if_neg hcb] at h2
                have hac : ¬ a.toNat < c.toNat := by omega
                have hca : ¬ c.toNat < a.toNat := by omega
                rw [if_neg hac, if_neg hca]
                exact ih bs cs h1 h2

theorem strLtB_tri : ∀ (l1 l2 : List Char),
    strLtB l1 l2 = true ∨ l1 = l2 ∨ strLtB l2 l1 = true := by
  intro l1
  induction l1 with
  | nil =>
    intro l2
    cases l2 with
    | nil => exact Or.inr (Or.inl rfl)
    | cons b bs => exact Or.inl rfl
  | cons a as ih =>
    intro l2
    cases l2 with
    | nil => exact Or.inr (Or.inr rfl)
    | cons b bs =>
      by_cases hab : a.toNat < b.toNat
      · refine Or.inl ?_
        simp only [strLtB]
        rw [if_pos hab]
      · by_cases hba : b.toNat < a.toNat
        · refine Or.inr (Or.inr ?_)
          simp only [strLtB]
          rw [if_pos hba]
        · have hEq : a = b := charEq_of_toNat_eq (by omega)
          rcases ih bs with h | h | h
          · refine Or.inl ?_
            simp only [strLtB]
            rw [if_neg hab, if_neg hba]
            exact h
          · exact Or.inr (Or.inl (by rw [hEq, h]))
          · refine Or.inr (Or.inr ?_)
            simp only [strLtB]
            rw [if_neg hba, if_neg hab]
            exact h

theorem strLtB_asymm (l1 l2 : List Char) (h1 : strLtB l1 l2 = true)
    (h2 : strLtB l2 l1 = true) : False := by
  have h3 := strLtB_trans l1 l2 l1 h1 h2
  rw [strLtB_irrefl] at h3
  exact Bool.noConfusion h3

theorem strLtB_le_trans {x y z : List Char} (h1 : strLtB y x = false)
    (h2 : strLtB z y = false) : strLtB z x = false := by
  cases hzx : strLtB z x with
  | false => rfl
  | true =>
    exfalso
    rcases strLtB_tri x y with h | h | h
    · have h3 := strLtB_trans z x y hzx h
      rw [h3] at h2
      exact Bool.noConfusion h2
    · rw [h] at hzx
      rw [hzx] at h2
      exact Bool.noConfusion h2
    · rw [h] at h1
      exact Bool.noConfusion h1

theorem strLtB_le_total (x y : List Char) : strLtB y x = false ∨ strLtB x y = false := by
  cases h1 : strLtB y x with
  | false => exact Or.inl rfl
  | true =>
    cases h2 : strLtB x y with
    | false => exact Or.inr rfl
    | true => exact (strLtB_asymm x y h2 h1).elim

instance : IsTotal Entry entryLE := ⟨fun a b => strLtB_le_total a.name.data b.name.data⟩

instance : IsTrans Entry entryLE := ⟨fun _ _ _ h1 h2 => strLtB_le_trans h1 h2⟩

instance : IsAntisymm Entry entryLT := ⟨fun _ _ h1 h2 => (strLtB_asymm _ _ h1 h2).elim⟩

/-! Sorting facts: the sorted listing is unique once file names are distinct,
so the bundler's chunk order does not depend on the filesystem enumeration. -/

theorem entryLT_of_le_ne {a b : Entry} (hle : entryLE a b) (hne : a.name ≠ b.name) :
    entryLT a b := by
  rcases strLtB_tri a.name.data b.name.data with h | h | h
  · exact h
  · exact absurd (stringEq_of_data_eq h) hne
  · unfold entryLE at hle
    rw [h] at hle
    exact Bool.noConfusion hle

theorem sorted_entryLT_of_sorted {l : List Entry} (hs : l.Sorted entryLE)
    (hnd : (l.map Entry.name).Nodup) : l.Sorted entryLT := by
  have hnd' : (l.map Entry.name).Pairwise (· ≠ ·) := hnd
  have hp : l.Pairwise (fun a b : Entry => a.name ≠ b.name) := List.pairwise_map.mp hnd'
  exact (List.Pairwise.and hs hp).imp (fun h => entryLT_of_le_ne h.1 h.2)

theorem sortEntries_sorted_le (l : List Entry) : (sortEntries l).Sorted entryLE :=
  List.sorted_insertionSort entryLE l

theorem sortEntries_perm (l : List Entry) : (sortEntries l).Perm l :=
  List.perm_insertionSort entryLE l

theorem sortEntries_names_nodup {l : List Entry} (hnd : (l.map Entry.name).Nodup) :
    ((sortEntries l).map Entry.name).Nodup :=
  ((sortEntries_perm l).map Entry.name).nodup_iff.mpr hnd

theorem sortEntries_sorted_lt {l : List Entry} (hnd : (l.map Entry.name).Nodup) :
    (sortEntries l).Sorted entryLT :=
  sorted_entryLT_of_sorted (sortEntries_sorted_le l) (sortEntries_names_nodup hnd)

theorem sortEntries_eq_of_perm {l1 l2 : List Entry} (hp : l1.Perm l2)
    (hnd : (l1.map Entry.name).Nodup) : sortEntries l1 = sortEntries l2 := by
  have hnd2 : (l2.map Entry.name).Nodup := ((hp.map Entry.name).nodup_iff).mp hnd
  exact List.eq_of_perm_of_sorted
    ((sortEntries_perm l1).trans (hp.trans (sortEntries_perm l2).symm))
    (sortEntries_sorted_lt hnd) (sortEntries_sorted_lt hnd2)

theorem sortEntries_filter {l : List Entry} (p : Entry → Bool)
    (hnd : (l.map Entry.name).Nodup) :
    (sortEntries l).filter p = sortEntries (l.filter p) := by
  have hndf : ((l.filter p).map Entry.name).Nodup :=
    List.Nodup.sublist (List.Sublist.map Entry.name (List.filter_sublist l)) hnd
  have hs1 : ((sortEntries l).filter p).Sorted entryLT :=
    (sortEntries_sorted_lt hnd).filter p
  have hs2 : (sortEntries (l.filter p)).Sorted entryLT := sortEntries_sorted_lt hndf
  have hperm : ((sortEntries l).filter p).Perm (sortEntries (l.filter p)) :=
    ((sortEntries_perm l).filter p).trans (sortEntries_perm (l.filter p)).symm
  exact List.eq_of_perm_of_sorted hperm hs1 hs2

/-! Facts about pyStrip. -/

theorem head?_dropWhile_not {p : α → Bool} {l : List α} {a : α}
    (h : (l.dropWhile p).head? = some a) : p a = false := by
  induction l with
  | nil => simp [List.dropWhile] at h
  | cons x xs ih =>
    rw [List.dropWhile_cons] at h
    by_cases hx : p x
    · rw [if_pos hx] at h
      exact ih h
    · rw [if_neg hx] at h
      rw [List.head?_cons] at h
      injection h with h
      subst h
      simpa using hx

theorem pyStrip_getLast_not_space {t : String} {c : Char}
    (h : (pyStrip t).data.getLast? = some c) : pyIsSpace c = false := by
  have h' : ((((t.data.dropWhile pyIsSpace).reverse.dropWhile pyIsSpace)).reverse).getLast?
      = some c := h
  rw [List.getLast?_reverse] at h'
  exact head?_dropWhile_not h'

/-! Facts about the bundling pass. -/

theorem processEntries_filter (env : Env) (l : List Entry) :
    processEntries env l = processEntries env (l.filter (fun e => !e.isDir)) := by
  induction l with
  | nil => rfl
  | cons e es ih =>
    cases hd : e.isDir with
    | true => simp [processEntries, List.filter_cons, hd, ih]
    | false => simp [processEntries, List.filter_cons, hd, ih]

/-! Facts about the xlsx preview. -/

theorem flatMap_xlsxSheetPart_congr {l1 l2 : List Sheet}
    (h : l1.map (fun s => (s.title, sheetPreviewGrid s))
       = l2.map (fun s => (s.title, sheetPreviewGrid s))) :
    l1.flatMap xlsxSheetPart = l2.flatMap xlsxSheetPart := by
  induction l1 generalizing l2 with
  | nil =>
    cases l2 with
    | nil => rfl
    | cons b bs => simp at h
  | cons a as ih =>
    cases l2 with
    | nil => simp at h
    | cons b bs =>
      simp only [List.map_cons, List.cons.injEq] at h
      obtain ⟨h1, h2⟩ := h
      have ht : a.title = b.title := congrArg Prod.fst h1
      have hg : sheetPreviewGrid a = sheetPreviewGrid b := congrArg Prod.snd h1
      simp only [List.flatMap_cons]
      rw [ih h2]
      have hpart : xlsxSheetPart a = xlsxSheetPart b := by
        unfold xlsxSheetPart
        rw [ht, hg]
      rw [hpart]

theorem sheetPreviewGrid_length (s : Sheet) : (sheetPreviewGrid s).length = 15 := by
  simp [sheetPreviewGrid]

theorem sheetPreviewGrid_row_length {s : Sheet} {row : List (Option String)}
    (h : row ∈ sheetPreviewGrid s) : row.length = 10 := by
  unfold sheetPreviewGrid at h
  rcases List.mem_map.mp h with ⟨r, _, rfl⟩
  simp

theorem sheetPreviewGrid_get {s : Sheet} {i j : Nat} (hi : i < 15) (hj : j < 10) :
    gridGet (sheetPreviewGrid s) i j = some (sheetCell s (1 + i) (1 + j)) := by
  unfold gridGet sheetPreviewGrid
  rw [List.getElem?_map]
  rw [List.getElem?_range']
  · simp only [Option.map_some', Option.some_bind, Nat.one_mul]
    rw [List.getElem?_map]
    rw [List.getElem?_range']
    · simp [Nat.one_mul]
    · exact hj
  · exact hi

theorem sheetCell_row_out {s : Sheet} {i j : Nat} (h : s.data.length ≤ i) :
    sheetCell s (1 + i) (1 + j) = none := by
  unfold sheetCell
  rw [show 1 + i - 1 = i from by omega]
  rw [List.getElem?_eq_none h]
  rfl

theorem sheetCell_col_out {s : Sheet} {i j : Nat} {row : List (Option String)}
    (h : s.data[i]? = some row) (hj : row.length ≤ j) :
    sheetCell s (1 + i) (1 + j) = none := by
  unfold sheetCell
  rw [show 1 + i - 1 = i from by omega, show 1 + j - 1 = j from by omega]
  rw [h]
  simp only [Option.some_bind]
  rw [List.getElem?_eq_none hj]
  rfl

/-! Facts about the trace projections. -/

theorem writeEvts_append (name : String) (l1 l2 : List Ev) :
    writeEvts name (l1 ++ l2) = writeEvts name l1 ++ writeEvts name l2 := by
  induction l1 with
  | nil => rfl
  | cons e rest ih =>
    cases e with
    | writeEv n c =>
      by_cases h : n = name
      · simp [writeEvts, h, ih]
      · simp [writeEvts, h, ih]
    | readPromptEv n => simp [writeEvts, ih]
    | agentCallEv p i => simp [writeEvts, ih]

theorem promptReadsOf_append (l1 l2 : List Ev) :
    promptReadsOf (l1 ++ l2) = promptReadsOf l1 ++ promptReadsOf l2 := by
  induction l1 with
  | nil => rfl
  | cons e rest ih =>
    cases e with
    | writeEv n c => simp [promptReadsOf, ih]
    | readPromptEv n => simp [promptReadsOf, ih]
    | agentCallEv p i => simp [promptReadsOf, ih]

theorem agentCallsOf_append (l1 l2 : List Ev) :
    agentCallsOf (l1 ++ l2) = agentCallsOf l1 ++ agentCallsOf l2 := by
  induction l1 with
  | nil => rfl
  | cons e rest ih =>
    cases e with
    | writeEv n c => simp [agentCallsOf, ih]
    | readPromptEv n => simp [agentCallsOf, ih]
    | agentCallEv p i => simp [agentCallsOf, ih]

theorem stage0First_empty (env : Env) : stage0First env "" = ([], "") := by
  have h0 : pyStrip "" = "" := by decide
  unfold stage0First
  rw [if_neg (fun hc => hc h0)]

theorem stage0Second_empty (env : Env) : stage0Second env "" = ([], "") := by
  unfold stage0Second
  rw [if_neg (fun hc => hc rfl)]

theorem combinedInput_empty (env : Env) : combinedInput env "" = env.transcript := by
  unfold combinedInput
  rw [stage0Second_empty]
  exact if_neg (fun hc => hc rfl)

theorem writeEvts_stage0First (env : Env) (b name : String)
    (h : "out/context.md" ≠ name) :
    writeEvts name (stage0First env b).1 = [] := by
  unfold stage0First
  by_cases hb : pyStrip b ≠ ""
  · rw [if_pos hb]
    simp [writeEvts, h]
  · rw [if_neg hb]
    rfl

theorem writeEvts_stage0Second (env : Env) (b name : String)
    (h : "out/context.md" ≠ name) :
    writeEvts name (stage0Second env b).1 = [] := by
  unfold stage0Second
  by_cases hb : b ≠ ""
  · rw [if_pos hb]
    simp [writeEvts, h]
  · rw [if_neg hb]
    rfl

theorem writeEvts_pipeline_notesraw (env : Env) (b : String) :
    writeEvts "out/notes_raw.txt" (pipelineEvents env b) = [notesText env b] := by
  simp only [pipelineEvents]
  rw [writeEvts_append, writeEvts_append, writeEvts_append, writeEvts_append, writeEvts_append,
    writeEvts_stage0First env b _ (by decide), writeEvts_stage0Second env b _ (by decide)]
  cases hj : env.jsonLoads (notesText env b) with
  | none => simp [jsonEvents, hj, writeEvts, prePromptEvents]
  | some v => simp [jsonEvents, hj, writeEvts, prePromptEvents]

theorem writeEvts_pipeline_notesjson (env : Env) (b : String) :
    writeEvts "out/notes.json" (pipelineEvents env b)
      = (match env.jsonLoads (notesText env b) with
         | some v => [pyDumps v]
         | none => []) := by
  simp only [pipelineEvents]
  rw [writeEvts_append, writeEvts_append, writeEvts_append, writeEvts_append, writeEvts_append,
    writeEvts_stage0First env b _ (by decide), writeEvts_stage0Second env b _ (by decide)]
  cases hj : env.jsonLoads (notesText env b) with
  | none => simp [jsonEvents, hj, writeEvts, prePromptEvents]
  | some v => simp [jsonEvents, hj, writeEvts, prePromptEvents]

theorem prdCall_mem_pipeline (env : Env) (b : String) :
    Ev.agentCallEv (env.prompts "agents/prd_writer.txt") (prdInput env b)
      ∈ pipelineEvents env b := by
  simp only [pipelineEvents]
  exact List.mem_append_right _ (List.mem_cons_self _ _)

theorem prdInput_of_some_truthy {env : Env} {b : String} {v : PyJson}
    (hv : env.jsonLoads (notesText env b) = some v) (ht : pyTruthy v = true) :
    prdInput env b = pyDumps v := by
  simp [prdInput, hv, ht]

theorem prdInput_of_some_falsy {env : Env} {b : String} {v : PyJson}
    (hv : env.jsonLoads (notesText env b) = some v) (ht : pyTruthy v = false) :
    prdInput env b = notesText env b := by
  simp [prdInput, hv, ht]

theorem prdInput_of_none {env : Env} {b : String}
    (hv : env.jsonLoads (notesText env b) = none) :
    prdInput env b = notesText env b := by
  simp [prdInput, hv]

/-! Concrete environments used by witnesses and counterexamples. -/

/-- A one-sheet demo workbook. -/
def wbDemo : Workbook := ⟨[⟨"Sheet1", [[some "h1", some "h2"], [some "a", none]]⟩]⟩

/-- A one-slide demo presentation. -/
def presDemo : Pres := ⟨[⟨[⟨some "Title"⟩], .ok none⟩]⟩

/-- An environment in which every external capability succeeds. -/
def envOk : Env :=
  { transcript := "T",
    prompts := fun n => "P:" ++ n,
    agent := fun p i => "A(" ++ p ++ ")(" ++ i ++ ")",
    jsonLoads := fun _ => none,
    readTextIgnore := fun _ => .ok "hello",
    readCsvRows := fun _ => .ok (List.replicate 32 ["x"]),
    openpyxl := some (fun _ => .ok wbDemo),
    pptx := some (fun _ => .ok presDemo) }

/-- An environment in which the optional parsing libraries are missing. -/
def envMissing : Env :=
  { transcript := "T",
    prompts := fun n => "P:" ++ n,
    agent := fun p i => "A(" ++ p ++ ")(" ++ i ++ ")",
    jsonLoads := fun _ => none,
    readTextIgnore := fun _ => .ok "hello",
    readCsvRows := fun _ => .ok [],
    openpyxl := none,
    pptx := none }

/-- An environment in which openpyxl is importable but load_workbook raises
on the (malformed) file it is given. -/
def envBadXlsx : Env :=
  { transcript := "T",
    prompts := fun n => "P:" ++ n,
    agent := fun _ _ => "",
    jsonLoads := fun _ => none,
    readTextIgnore := fun _ => .ok "",
    readCsvRows := fun _ => .ok [],
    openpyxl := some (fun _ => .error (PyExc.badFile "BadZipFile: File is not a zip file")),
    pptx := none }

/-! Claim theorems. -/

/-- Claim C4: for every CSV input, the preview holds exactly min(n, 30) rows:
30 when the file has at least 30 rows, n when it has fewer; the kept rows are
an initial segment, so rows past the 30th never appear; and the dispatcher
routes every .csv entry to this ingester. -/
theorem c4_csv_preview (env : Env) (p : String) (rows : List (List String))
    (h : env.readCsvRows p = .ok rows) :
    ingest_csv env p = .ok ("CSV PREVIEW (first 30 rows):\n" ++ pyReprRows (rows.take 30)) ∧
    (rows.take 30).length = min rows.length 30 ∧
    rows.take 30 ++ rows.drop 30 = rows ∧
    (30 ≤ rows.length → (rows.take 30).length = 30) ∧
    (rows.length < 30 → (rows.take 30).length = rows.length) ∧
    (∀ e : Entry, extOf e.name = ".csv" → dispatch env e = ingest_csv env e.name) := by
  have hlen : (rows.take 30).length = min rows.length 30 := by
    rw [List.length_take]
    omega
  refine ⟨?_, hlen, List.take_append_drop 30 rows, ?_, ?_, ?_⟩
  · unfold ingest_csv
    rw [h]
  · intro h30
    omega
  · intro h30
    omega
  · intro e he
    unfold dispatch
    rw [he]
    rw [if_neg (by decide), if_pos rfl]

/-- Claim C4 witness: a 32-row file previews exactly its first 30 rows. -/
theorem c4_witness :
    ingest_csv envOk "data.csv"
      = .ok ("CSV PREVIEW (first 30 rows):\n"
          ++ pyReprRows ((List.replicate 32 (["x"] : List String)).take 30)) ∧
    ((List.replicate 32 (["x"] : List String)).take 30).length
      = min (List.replicate 32 (["x"] : List String)).length 30 := by
  have h := c4_csv_preview envOk "data.csv" (List.replicate 32 ["x"]) rfl
  exact ⟨h.1, h.2.1⟩

/-- Claim C9: the emitted grid for any sheet is exactly 15 rows of exactly 10
entries; each position holds the sheet's cell value at the corresponding
1-based coordinates, and positions outside the populated region hold None
(padding rather than shrinking). -/
theorem c9_grid_exact (s : Sheet) :
    (sheetPreviewGrid s).length = 15 ∧
    (∀ row ∈ sheetPreviewGrid s, row.length = 10) ∧
    (∀ i j : Nat, i < 15 → j < 10 →
      gridGet (sheetPreviewGrid s) i j = some (sheetCell s (1 + i) (1 + j))) ∧
    (∀ i j : Nat, i < 15 → j < 10 → s.data.length ≤ i →
      gridGet (sheetPreviewGrid s) i j = some none) ∧
    (∀ (i j : Nat) (row : List (Option String)), i < 15 → j < 10 →
      s.data[i]? = some row → row.length ≤ j →
      gridGet (sheetPreviewGrid s) i j = some none) := by
  refine ⟨sheetPreviewGrid_length s, fun row hr => sheetPreviewGrid_row_length hr,
    fun i j hi hj => sheetPreviewGrid_get hi hj, ?_, ?_⟩
  · intro i j hi hj hrow
    rw [sheetPreviewGrid_get hi hj, sheetCell_row_out hrow]
  · intro i j row hi hj hr hlen
    rw [sheetPreviewGrid_get hi hj, sheetCell_col_out hr hlen]

/-- Claim C9 witness: a 1-by-1 sheet still yields a 15-by-10 grid, padded
with None below and to the right of the single populated cell. -/
theorem c9_witness :
    (sheetPreviewGrid ⟨"S", [[some "x"]]⟩).length = 15 ∧
    gridGet (sheetPreviewGrid ⟨"S", [[some "x"]]⟩) 1 0 = some none ∧
    gridGet (sheetPreviewGrid ⟨"S", [[some "x"]]⟩) 0 1 = some none := by
  have h := c9_grid_exact ⟨"S", [[some "x"]]⟩
  exact ⟨h.1, h.2.2.2.1 1 0 (by decide) (by decide) (by decide),
    h.2.2.2.2 0 1 [some "x"] (by decide) (by decide) (by decide) (by decide)⟩

/-- Claim C5: with the spreadsheet capability missing, the ingester returns
the explicit unavailability message; with it available and the load
succeeding, the preview is rendered from at most the first 3 sheets, and it
depends only on each such sheet's title and its 15-by-10 top-left cells, so
larger regions are never read; and the dispatcher routes every .xlsx entry
here. -/
theorem c5_xlsx_bounded (env : Env) (p : String) :
    (env.openpyxl = none →
      ingest_xlsx env p = .ok "XLSX provided but openpyxl is not installed.") ∧
    (∀ load wb, env.openpyxl = some load → load p = .ok wb →
      ingest_xlsx env p = .ok (xlsxRender wb.worksheets) ∧
      (wb.worksheets.take 3).length ≤ 3) ∧
    (∀ sheets1 sheets2 : List Sheet,
      (sheets1.take 3).map (fun s => (s.title, sheetPreviewGrid s))
        = (sheets2.take 3).map (fun s => (s.title, sheetPreviewGrid s)) →
      xlsxRender sheets1 = xlsxRender sheets2) ∧
    (∀ s1 s2 : Sheet,
      (∀ r ∈ List.range' 1 15, ∀ c ∈ List.range' 1 10, sheetCell s1 r c = sheetCell s2 r c) →
      sheetPreviewGrid s1 = sheetPreviewGrid s2) ∧
    (∀ e : Entry, extOf e.name = ".xlsx" → dispatch env e = ingest_xlsx env e.name) := by
  refine ⟨?_, ?_, ?_, ?_, ?_⟩
  · intro h
    unfold ingest_xlsx
    rw [h]
  · intro load wb hl hw
    constructor
    · unfold ingest_xlsx
      rw [hl]
      show (match load p with
        | Except.error e => Except.error e
        | Except.ok wb => Except.ok (xlsxRender wb.worksheets)) = _
      rw [hw]
    · rw [List.length_take]
      omega
  · intro sheets1 sheets2 h
    unfold xlsxRender
    rw [flatMap_xlsxSheetPart_congr h]
  · intro s1 s2 h
    unfold sheetPreviewGrid
    refine List.map_congr_left (fun r hr => ?_)
    exact List.map_congr_left (fun c hc => h r hr c hc)
  · intro e he
    unfold dispatch
    rw [he]
    rw [if_neg (by decide), if_neg (by decide), if_pos rfl]

/-- Claim C5 witness: the unavailability message when openpyxl is missing,
and the rendered preview of the demo workbook when it is present. -/
theorem c5_witness :
    ingest_xlsx envMissing "wb.xlsx" = .ok "XLSX provided but openpyxl is not installed." ∧
    ingest_xlsx envOk "wb.xlsx" = .ok (xlsxRender wbDemo.worksheets) := by
  have h1 := (c5_xlsx_bounded envMissing "wb.xlsx").1 rfl
  have h2 := ((c5_xlsx_bounded envOk "wb.xlsx").2.1 (fun _ => .ok wbDemo) wbDemo rfl rfl).1
  exact ⟨h1, h2⟩

/-- Claim C1 counterexample: with openpyxl importable but the workbook
malformed, load_workbook raises outside any handler (src/run.py line 55), so
the dispatcher raises instead of returning a placeholder string, and the
bundling pass over a directory holding that one file aborts. -/
theorem c1_counterexample :
    raisedB (dispatch envBadXlsx ⟨"bad.xlsx", false⟩) = true ∧
    raisedB (build_context_bundle envBadXlsx (some [⟨"bad.xlsx", false⟩])) = true := by
  decide

/-- Claim C1 amended: a missing optional parsing capability degrades to a
placeholder, any unsupported extension yields the skip marker without the
file ever being read, and the dispatcher returns a preview whenever the
underlying reads and library loads it performs succeed; but an unreadable
file or a malformed spreadsheet/presentation raises and aborts the bundling
pass (see the counterexample). -/
theorem c1_amended (env : Env)
    (htxt : ∀ p, ∃ s, env.readTextIgnore p = .ok s)
    (hcsv : ∀ p, ∃ r, env.readCsvRows p = .ok r)
    (hxl : env.openpyxl = none ∨
      ∃ load, env.openpyxl = some load ∧ ∀ p, ∃ wb, load p = .ok wb)
    (hpp : env.pptx = none ∨
      ∃ load, env.pptx = some load ∧ ∀ p, ∃ pr, load p = .ok pr) :
    (∀ e : Entry, ∃ s, dispatch env e = .ok s) ∧
    (∀ (env2 : Env) (e : Entry),
      extOf e.name ∉ ([".txt", ".md", ".csv", ".xlsx", ".pptx"] : List String) →
      dispatch env2 e = .ok ("(Skipped unsupported file type: " ++ extOf e.name ++ ")")) := by
  constructor
  · intro e
    unfold dispatch
    by_cases h1 : extOf e.name = ".txt" ∨ extOf e.name = ".md"
    · rw [if_pos h1]
      exact htxt e.name
    · rw [if_neg h1]
      by_cases h2 : extOf e.name = ".csv"
      · rw [if_pos h2]
        obtain ⟨r, hr⟩ := hcsv e.name
        exact ⟨_, by unfold ingest_csv; rw [hr]⟩
      · rw [if_neg h2]
        by_cases h3 : extOf e.name = ".xlsx"
        · rw [if_pos h3]
          rcases hxl with h | ⟨load, hl, hall⟩
          · exact ⟨_, by unfold ingest_xlsx; rw [h]⟩
          · obtain ⟨wb, hwb⟩ := hall e.name
            refine ⟨xlsxRender wb.worksheets, ?_⟩
            unfold ingest_xlsx
            rw [hl]
            show (match load e.name with
              | Except.error ex => Except.error ex
              | Except.ok wb => Except.ok (xlsxRender wb.worksheets)) = _
            rw [hwb]
        · rw [if_neg h3]
          by_cases h4 : extOf e.name = ".pptx"
          · rw [if_pos h4]
            rcases hpp with h | ⟨load, hl, hall⟩
            · exact ⟨_, by unfold ingest_pptx_text_only; rw [h]⟩
            · obtain ⟨pr, hpr⟩ := hall e.name
              refine ⟨String.intercalate "\n"
                (pr.slides.enum.flatMap (fun x => slideParts (x.1 + 1) x.2)), ?_⟩
              unfold ingest_pptx_text_only
              rw [hl]
              show (match load e.name with
                | Except.error ex => Except.error ex
                | Except.ok prs =>
                  Except.ok (String.intercalate "\n"
                    (prs.slides.enum.flatMap (fun pr => slideParts (pr.1 + 1) pr.2)))) = _
              rw [hpr]
          · rw [if_neg h4]
            exact ⟨_, rfl⟩
  · intro env2 e he
    simp only [List.mem_cons, List.not_mem_nil, or_false, not_or] at he
    obtain ⟨h1, h2, h3, h4, h5⟩ := he
    unfold dispatch
    rw [if_neg (by tauto), if_neg h3, if_neg h4, if_neg h5]

/-- Claim C1 amended witness: with all capabilities succeeding the dispatcher
returns a preview for a text file, and a .docx file gets the skip marker. -/
theorem c1_witness :
    (∃ s, dispatch envOk ⟨"notes.txt", false⟩ = .ok s) ∧
    dispatch envOk ⟨"report.docx", false⟩
      = .ok ("(Skipped unsupported file type: " ++ extOf "report.docx" ++ ")") := by
  have h := c1_amended envOk (fun _ => ⟨"hello", rfl⟩) (fun _ => ⟨_, rfl⟩)
    (Or.inr ⟨_, rfl, fun _ => ⟨wbDemo, rfl⟩⟩) (Or.inr ⟨_, rfl, fun _ => ⟨presDemo, rfl⟩⟩)
  exact ⟨h.1 ⟨"notes.txt", false⟩, h.2 envOk ⟨"report.docx", false⟩ (by decide)⟩

/-- Claim C6: the bundle is invariant under the filesystem's listing order
(chunks follow lexicographic name order), subdirectories are skipped, the
joined-and-stripped result carries no trailing whitespace, the bundle is the
blank-line-headed chunks joined with a newline then stripped, and for files
b.csv and a.txt the sorted chunk order is a.txt before b.csv. -/
theorem c6_bundler (env : Env) (l1 l2 : List Entry) (hp : l1.Perm l2)
    (hnd : (l1.map Entry.name).Nodup) :
    build_context_bundle env (some l1) = build_context_bundle env (some l2) ∧
    build_context_bundle env (some l1)
      = build_context_bundle env (some (l1.filter (fun e => !e.isDir))) ∧
    (∀ s c, build_context_bundle env (some l1) = .ok s →
      s.data.getLast? = some c → pyIsSpace c = false) ∧
    (∀ chunks, processEntries env (sortEntries l1) = .ok chunks →
      build_context_bundle env (some l1) = .ok (pyStrip (String.intercalate "\n" chunks))) ∧
    (sortEntries [⟨"b.csv", false⟩, ⟨"a.txt", false⟩]).map Entry.name
      = ["a.txt", "b.csv"] := by
  refine ⟨?_, ?_, ?_, ?_, by decide⟩
  · simp only [build_context_bundle]
    rw [sortEntries_eq_of_perm hp hnd]
  · simp only [build_context_bundle]
    rw [processEntries_filter env (sortEntries l1), sortEntries_filter (fun e => !e.isDir) hnd]
  · intro s c hs hlast
    simp only [build_context_bundle] at hs
    cases hpe : processEntries env (sortEntries l1) with
    | error ex =>
      rw [hpe] at hs
      exact Except.noConfusion hs
    | ok chunks =>
      rw [hpe] at hs
      injection hs with hs
      subst hs
      exact pyStrip_getLast_not_space hlast
  · intro chunks hc
    simp only [build_context_bundle]
    rw [hc]

/-- Claim C6 witness: a listing holding b.csv, a.txt and a subdirectory, in
scrambled order, bundles identically to the name-sorted listing, and the
sorted chunk order is a.txt before b.csv. -/
theorem c6_witness :
    build_context_bundle envOk
        (some [⟨"b.csv", false⟩, ⟨"a.txt", false⟩, ⟨"sub", true⟩])
      = build_context_bundle envOk
        (some [⟨"a.txt", false⟩, ⟨"b.csv", false⟩, ⟨"sub", true⟩]) ∧
    (sortEntries [⟨"b.csv", false⟩, ⟨"a.txt", false⟩]).map Entry.name
      = ["a.txt", "b.csv"] := by
  have h := c6_bundler envOk
    [⟨"b.csv", false⟩, ⟨"a.txt", false⟩, ⟨"sub", true⟩]
    [⟨"a.txt", false⟩, ⟨"b.csv", false⟩, ⟨"sub", true⟩]
    (List.Perm.swap (Entry.mk "a.txt" false) (Entry.mk "b.csv" false) [Entry.mk "sub" true])
    (by decide)
  exact ⟨h.1, h.2.2.2.2⟩

/-- Claim C7: for an empty or nonexistent context directory the bundler
returns the empty string; the run then never reads the librarian instruction
file, never writes the context artifact, makes exactly the four downstream
agent calls with the Chief of Staff receiving the bare transcript, and no
CONTEXT PACK delimiter is appended. -/
theorem c7_empty_context (env : Env) (dir : Option (List Entry))
    (h : dir = none ∨ dir = some ([] : List Entry)) :
    build_context_bundle env dir = .ok "" ∧
    runMain env dir = .ok (pipelineEvents env "") ∧
    writeEvts "out/context.md" (pipelineEvents env "") = [] ∧
    "agents/librarian.txt" ∉ promptReadsOf (pipelineEvents env "") ∧
    agentCallsOf (pipelineEvents env "") =
      [(env.prompts "agents/chief_of_staff.txt", env.transcript),
       (env.prompts "agents/prd_writer.txt", prdInput env ""),
       (env.prompts "agents/cfo_critic.txt", prdMd env ""),
       (env.prompts "agents/coo_jira.txt", prdMd env "")] ∧
    combinedInput env "" = env.transcript := by
  have hps : pyStrip (String.intercalate "\n" ([] : List String)) = "" := by decide
  have hb : build_context_bundle env dir = .ok "" := by
    rcases h with h | h
    · rw [h]
      rfl
    · rw [h]
      show (match processEntries env (sortEntries []) with
        | Except.error ex => Except.error ex
        | Except.ok chunks => Except.ok (pyStrip (String.intercalate "\n" chunks))) = _
      show Except.ok (pyStrip (String.intercalate "\n" ([] : List String))) = _
      rw [hps]
  refine ⟨hb, ?_, ?_, ?_, ?_, combinedInput_empty env⟩
  · unfold runMain
    rw [hb]
  · simp only [pipelineEvents, stage0First_empty, stage0Second_empty]
    cases hj : env.jsonLoads (notesText env "") with
    | none =>
      simp only [jsonEvents, hj]
      simp [writeEvts, writeEvts_append, prePromptEvents]
    | some v =>
      simp only [jsonEvents, hj]
      simp [writeEvts, writeEvts_append, prePromptEvents]
  · simp only [pipelineEvents, stage0First_empty, stage0Second_empty]
    cases hj : env.jsonLoads (notesText env "") with
    | none =>
      simp only [jsonEvents, hj]
      simp [promptReadsOf, promptReadsOf_append, prePromptEvents]
    | some v =>
      simp only [jsonEvents, hj]
      simp [promptReadsOf, promptReadsOf_append, prePromptEvents]
  · simp only [pipelineEvents, stage0First_empty, stage0Second_empty]
    cases hj : env.jsonLoads (notesText env "") with
    | none =>
      simp only [jsonEvents, hj]
      simp [agentCallsOf, agentCallsOf_append, prePromptEvents, combinedInput_empty]
    | some v =>
      simp only [jsonEvents, hj]
      simp [agentCallsOf, agentCallsOf_append, prePromptEvents, combinedInput_empty]

/-- Claim C7 witness: the conclusions at a concrete empty directory. -/
theorem c7_witness :
    build_context_bundle envOk (some ([] : List Entry)) = .ok "" ∧
    runMain envOk (some ([] : List Entry)) = .ok (pipelineEvents envOk "") ∧
    writeEvts "out/context.md" (pipelineEvents envOk "") = [] := by
  have h := c7_empty_context envOk (some []) (Or.inr rfl)
  exact ⟨h.1, h.2.1, h.2.2.1⟩

/-- Claim C8: with every capability a fixed function (deterministic mocked
agent, fixed instruction files, fixed transcript), the run is a function of
the directory snapshot alone: two listings of the same snapshot (any
enumeration orders) produce the same bundle and byte-identical artifact
traces. -/
theorem c8_determinism (env : Env) (l1 l2 : List Entry) (hp : l1.Perm l2)
    (hnd : (l1.map Entry.name).Nodup) :
    build_context_bundle env (some l1) = build_context_bundle env (some l2) ∧
    runMain env (some l1) = runMain env (some l2) := by
  have hb : build_context_bundle env (some l1) = build_context_bundle env (some l2) := by
    simp only [build_context_bundle]
    rw [sortEntries_eq_of_perm hp hnd]
  refine ⟨hb, ?_⟩
  unfold runMain
  rw [hb]

/-- Claim C8 witness: two enumeration orders of a two-file snapshot yield the
same run. -/
theorem c8_witness :
    runMain envOk (some [⟨"notes.txt", false⟩, ⟨"data.csv", false⟩])
      = runMain envOk (some [⟨"data.csv", false⟩, ⟨"notes.txt", false⟩]) :=
  (c8_determinism envOk [⟨"notes.txt", false⟩, ⟨"data.csv", false⟩]
    [⟨"data.csv", false⟩, ⟨"notes.txt", false⟩]
    (List.Perm.swap (Entry.mk "data.csv" false) (Entry.mk "notes.txt" false) [])
    (by decide)).2

/-- An environment whose Chief of Staff returns valid JSON text that parses
to an empty object: json.loads succeeds, but the value is Python-falsy. -/
def envC3 : Env :=
  { transcript := "T",
    prompts := fun n => "P:" ++ n,
    agent := fun p _ => if p = "P:agents/chief_of_staff.txt" then "\x7b \x7d" else "X",
    jsonLoads := fun s => if s = "\x7b \x7d" then some (PyJson.obj PyJsonObj.onil) else none,
    readTextIgnore := fun _ => .ok "",
    readCsvRows := fun _ => .ok [],
    openpyxl := none,
    pptx := none }

/-- Claim C3 counterexample: when stage 1 returns the valid JSON text
consisting of an open brace, a space and a close brace, the parse succeeds
(yielding the empty object, whose canonical dump is the two-character brace
pair and whose Python truthiness is False), yet the PRD writer receives the
verbatim raw text rather than the structured record, because the code
branches on the value's truthiness rather than on parse success. -/
theorem c3_counterexample :
    (envC3.jsonLoads (notesText envC3 "")).map pyDumps = some "\x7b\x7d" ∧
    (envC3.jsonLoads (notesText envC3 "")).map pyTruthy = some false ∧
    agentInputsFor (envC3.prompts "agents/prd_writer.txt") (traceOf envC3 none)
      = ["\x7b \x7d"] ∧
    ("\x7b \x7d" : String) ≠ "\x7b\x7d" := by
  decide

/-- Claim C3 amended: notes_raw is written exactly once with the verbatim
stage-1 text and before the parse outcome is persisted; notes.json is
written if and only if the parse succeeds; and the PRD writer receives the
re-serialized record when the parse succeeded AND the value is truthy, and
the verbatim raw text otherwise (parse failure, or a falsy parsed value);
parse failure is non-fatal and never loses the raw output. -/
theorem c3_amended (env : Env) (b : String) :
    writeEvts "out/notes_raw.txt" (pipelineEvents env b) = [notesText env b] ∧
    writeEvts "out/notes.json" (pipelineEvents env b)
      = (match env.jsonLoads (notesText env b) with
         | some v => [pyDumps v]
         | none => []) ∧
    (∃ pre tail, pipelineEvents env b
        = pre ++ Ev.writeEv "out/notes_raw.txt" (notesText env b) :: (jsonEvents env b ++ tail) ∧
      writeEvts "out/notes.json" pre = [] ∧ writeEvts "out/notes_raw.txt" pre = []) ∧
    Ev.agentCallEv (env.prompts "agents/prd_writer.txt") (prdInput env b)
      ∈ pipelineEvents env b ∧
    (∀ v, env.jsonLoads (notesText env b) = some v → pyTruthy v = true →
      prdInput env b = pyDumps v) ∧
    (∀ v, env.jsonLoads (notesText env b) = some v → pyTruthy v = false →
      prdInput env b = notesText env b) ∧
    (env.jsonLoads (notesText env b) = none → prdInput env b = notesText env b) := by
  refine ⟨writeEvts_pipeline_notesraw env b, writeEvts_pipeline_notesjson env b, ?_,
    prdCall_mem_pipeline env b, fun v hv ht => prdInput_of_some_truthy hv ht,
    fun v hv ht => prdInput_of_some_falsy hv ht, fun hv => prdInput_of_none hv⟩
  refine ⟨prePromptEvents ++ (stage0First env b).1 ++ (stage0Second env b).1 ++
      [Ev.agentCallEv (env.prompts "agents/chief_of_staff.txt") (combinedInput env b)],
    [Ev.agentCallEv (env.prompts "agents/prd_writer.txt") (prdInput env b),
     Ev.writeEv "out/prd.md" (prdMd env b),
     Ev.agentCallEv (env.prompts "agents/cfo_critic.txt") (prdMd env b),
     Ev.writeEv "out/roi_review.md" (env.agent (env.prompts "agents/cfo_critic.txt") (prdMd env b)),
     Ev.agentCallEv (env.prompts "agents/coo_jira.txt") (prdMd env b),
     Ev.writeEv "out/jira_plan.json" (env.agent (env.prompts "agents/coo_jira.txt") (prdMd env b))],
    ?_, ?_, ?_⟩
  · simp [pipelineEvents, List.append_assoc]
  · rw [writeEvts_append, writeEvts_append, writeEvts_append,
      writeEvts_stage0First env b _ (by decide), writeEvts_stage0Second env b _ (by decide)]
    simp [writeEvts, prePromptEvents]
  · rw [writeEvts_append, writeEvts_append, writeEvts_append,
      writeEvts_stage0First env b _ (by decide), writeEvts_stage0Second env b _ (by decide)]
    simp [writeEvts, prePromptEvents]

/-- Claim C3 amended witness: for the falsy-parse environment, notes_raw
still receives the verbatim text, notes.json is written with the canonical
dump, and the PRD input falls back to the raw text. -/
theorem c3_witness :
    writeEvts "out/notes_raw.txt" (pipelineEvents envC3 "") = [notesText envC3 ""] ∧
    writeEvts "out/notes.json" (pipelineEvents envC3 "")
      = (match envC3.jsonLoads (notesText envC3 "") with
         | some v => [pyDumps v]
         | none => []) ∧
    prdInput envC3 "" = notesText envC3 "" := by
  have h := c3_amended envC3 ""
  exact ⟨h.1, h.2.1, h.2.2.2.2.2.1 (PyJson.obj PyJsonObj.onil) rfl rfl⟩

/-- An environment whose Chief of Staff returns compact (non-canonical)
JSON text for a truthy one-field object. -/
def envC10 : Env :=
  { transcript := "T",
    prompts := fun n => "P:" ++ n,
    agent := fun p _ => if p = "P:agents/chief_of_staff.txt" then "\x7b\x22a\x22:1\x7d" else "X",
    jsonLoads := fun s => if s = "\x7b\x22a\x22:1\x7d"
      then some (PyJson.obj (PyJsonObj.ocons "a" (PyJson.num 1) PyJsonObj.onil)) else none,
    readTextIgnore := fun _ => .ok "",
    readCsvRows := fun _ => .ok [],
    openpyxl := none,
    pptx := none }

/-- Claim C10: whenever notes.json is written, its content is the 2-space
indented re-serialization of the parsed value — so it differs from the raw
stage-1 text whenever that text is not already in canonical form — and when
the parsed (truthy) value is used, that same re-serialized text is the PRD
writer's payload. -/
theorem c10_notes_json (env : Env) (b : String) (v : PyJson)
    (hv : env.jsonLoads (notesText env b) = some v) :
    writeEvts "out/notes.json" (pipelineEvents env b) = [pyDumps v] ∧
    (notesText env b ≠ pyDumps v →
      writeEvts "out/notes.json" (pipelineEvents env b) ≠ [notesText env b]) ∧
    (pyTruthy v = true → prdInput env b = pyDumps v ∧
      Ev.agentCallEv (env.prompts "agents/prd_writer.txt") (pyDumps v)
        ∈ pipelineEvents env b) := by
  have h1 : writeEvts "out/notes.json" (pipelineEvents env b) = [pyDumps v] := by
    rw [writeEvts_pipeline_notesjson, hv]
  refine ⟨h1, ?_, ?_⟩
  · intro hne heq
    rw [h1] at heq
    injection heq with h2
    exact hne h2.symm
  · intro ht
    have h2 := prdInput_of_some_truthy hv ht
    refine ⟨h2, ?_⟩
    have h3 := prdCall_mem_pipeline env b
    rwa [h2] at h3

/-- Claim C10 witness: the compact text parses, the persisted notes.json is
the canonical indented rendering (different from the raw text), and that
same rendering is the PRD payload. -/
theorem c10_witness :
    writeEvts "out/notes.json" (pipelineEvents envC10 "") = ["\x7b\n  \x22a\x22: 1\n\x7d"] ∧
    writeEvts "out/notes.json" (pipelineEvents envC10 "") ≠ [notesText envC10 ""] ∧
    prdInput envC10 "" = "\x7b\n  \x22a\x22: 1\n\x7d" := by
  have h := c10_notes_json envC10 ""
    (PyJson.obj (PyJsonObj.ocons "a" (PyJson.num 1) PyJsonObj.onil)) rfl
  refine ⟨h.1.trans (by decide), h.2.1 (by decide), ((h.2.2 rfl).1).trans (by decide)⟩

/-- Claim C2 (observed bug): a run over a non-empty context directory
invokes the Librarian twice and writes out/context.md twice — the duplicated
stage-0 block at src/run.py lines 175-179 repeats lines 158-163 — while the
other artifacts are written exactly once (notes.json not at all here, since
the raw notes do not parse). -/
theorem c2_context_written_twice :
    (writeEvts "out/context.md" (traceOf envOk (some [⟨"a.txt", false⟩]))).length = 2 ∧
    (agentInputsFor (envOk.prompts "agents/librarian.txt")
      (traceOf envOk (some [⟨"a.txt", false⟩]))).length = 2 ∧
    (writeEvts "out/notes_raw.txt" (traceOf envOk (some [⟨"a.txt", false⟩]))).length = 1 ∧
    (writeEvts "out/notes.json" (traceOf envOk (some [⟨"a.txt", false⟩]))).length = 0 ∧
    (writeEvts "out/prd.md" (traceOf envOk (some [⟨"a.txt", false⟩]))).length = 1 ∧
    (writeEvts "out/roi_review.md" (traceOf envOk (some [⟨"a.txt", false⟩]))).length = 1 ∧
    (writeEvts "out/jira_plan.json" (traceOf envOk (some [⟨"a.txt", false⟩]))).length = 1 := by
  decide

end PrdAgents
